import Mathlib

/-!
Verification of the contribution-graph writer (`main.py`).

The program renders a printable-ASCII message with a built-in 7-row bitmap
font, maps the resulting pixel grid onto a calendar window starting at a
Sunday, and creates a randomized number of empty commits for every "on"
cell.  The definitions below are a shallow embedding of the pure parts of
`main.py`: the static font table returned by `get_font`, the grid-building
loop, the date arithmetic on `datetime` values, the `progress` bar, the
argument validation at the top of `main`, and the commit-driving loop.
Dates are modelled by their proleptic Gregorian ordinal (as used by
Python's `datetime.toordinal`, where ordinal 1 is a Monday) together with
the time-of-day fields; randomness is modelled by an injected draw
function `rng : Nat → Nat` standing for the per-day `random.randrange`
result.
-/

namespace GCW

/-- `ASCII_PRINTABLE_FIRST` from main.py (space). -/
def ASCII_PRINTABLE_FIRST : Nat := 32

/-- `ASCII_PRINTABLE_LAST` from main.py (tilde). -/
def ASCII_PRINTABLE_LAST : Nat := 126

/-- The static font table of `get_font` in main.py: the list of the 95
glyphs for code points 32..126, each given as its list of row strings,
exactly as produced by `[[row.strip() for row in char.split()] for char in font]`
applied to the triple-quoted literals in the source. -/
def get_font : List (List String) := [
    ["..", "..", "..", "..", "..", "..", ".."],
    [".", "#", "#", "#", ".", "#", "."],
    ["...", "#.#", "#.#", "...", "...", "...", "..."],
    [".....", ".#.#.", "#####", ".#.#.", "#####", ".#.#.", "....."],
    ["..#..", ".####", "#.#..", ".###.", "..#.#", "####.", "..#.."],
    [".....", "##..#", "##.#.", "..#..", ".#.##", "#..##", "....."],
    [".##..", "#..#.", ".#...", ".##..", "#.#.#", "#..##", ".##.#"],
    [".", "#", "#", ".", ".", ".", "."],
    [".#", "#.", "#.", "#.", "#.", "#.", ".#"],
    ["#.", ".#", ".#", ".#", ".#", ".#", "#."],
    ["...", ".#.", "###", ".#.", "...", "...", "..."],
    ["...", "...", ".#.", "###", ".#.", "...", "..."],
    [".", ".", ".", ".", ".", "#", "#"],
    ["...", "...", "...", "###", "...", "...", "..."],
    [".", ".", ".", ".", ".", "#", "."],
    [".....", "....#", "...#.", "..#..", ".#...", "#....", "....."],
    ["....", ".##.", "#..#", "#..#", "#..#", ".##.", "...."],
    ["...", ".#.", "##.", ".#.", ".#.", "###", "..."],
    ["....", ".##.", "#..#", "..#.", "#...", "####", "...."],
    ["....", "###.", "...#", ".##.", "...#", "###.", "...."],
    ["....", "..#.", ".##.", "#.#.", "####", "..#.", "...."],
    ["....", "####", "#...", "###.", "...#", "###.", "...."],
    ["....", ".##.", "#...", "###.", "#..#", ".##.", "...."],
    ["....", "####", "...#", "..#.", ".#..", "#...", "...."],
    ["....", ".##.", "#..#", ".##.", "#..#", ".##.", "...."],
    ["....", ".##.", "#..#", ".###", "...#", "..#.", "...."],
    [".", ".", "#", ".", "#", ".", "."],
    [".", ".", "#", ".", "#", "#", "."],
    ["...", "..#", ".#.", "#..", ".#.", "..#", "..."],
    ["...", "...", "###", "...", "###", "...", "..."],
    ["...", "#..", ".#.", "..#", ".#.", "#..", "..."],
    ["....", ".##.", "...#", "..#.", "....", "..#.", "...."],
    [".....", ".###.", "#.#.#", "#.#.#", "#.###", ".##..", "....."],
    ["....", ".##.", "#..#", "####", "#..#", "#..#", "...."],
    ["....", "###.", "#..#", "###.", "#..#", "###.", "...."],
    ["....", ".###", "#...", "#...", "#...", ".###", "...."],
    ["....", "##..", "#.#.", "#..#", "#.#.", "##..", "...."],
    ["....", "####", "#...", "###.", "#...", "####", "...."],
    ["....", "####", "#...", "###.", "#...", "#...", "...."],
    ["....", ".###", "#...", "#.##", "#..#", ".###", "...."],
    ["....", "#..#", "#..#", "####", "#..#", "#..#", "...."],
    ["...", "###", ".#.", ".#.", ".#.", "###", "..."],
    ["....", "...#", "...#", "...#", "#..#", ".##.", "...."],
    ["....", "#..#", "#.#.", "##..", "#.#.", "#..#", "...."],
    ["....", "#...", "#...", "#...", "#...", "####", "...."],
    [".....", ".#.#.", "#.#.#", "#.#.#", "#...#", "#...#", "....."],
    [".....", "#...#", "##..#", "#.#.#", "#..##", "#...#", "....."],
    ["....", ".##.", "#..#", "#..#", "#..#", ".##.", "...."],
    ["....", "###.", "#..#", "###.", "#...", "#...", "...."],
    ["....", ".##.", "#..#", "#..#", "#.##", ".##.", "...#"],
    ["....", "###.", "#..#", "###.", "#.#.", "#..#", "...."],
    ["....", ".###", "#...", ".##.", "...#", "###.", "...."],
    ["...", "###", ".#.", ".#.", ".#.", ".#.", "..."],
    ["....", "#..#", "#..#", "#..#", "#..#", ".##.", "...."],
    ["....", "#..#", "#..#", "#..#", "#.#.", ".#..", "...."],
    [".....", "#...#", "#...#", "#.#.#", "#.#.#", ".#.#.", "....."],
    [".....", "#...#", ".#.#.", "..#..", ".#.#.", "#...#", "....."],
    ["...", "#.#", "#.#", ".#.", ".#.", ".#.", "..."],
    ["....", "####", "..#.", ".#..", "#...", "####", "...."],
    ["##", "#.", "#.", "#.", "#.", "#.", "##"],
    [".....", "#....", ".#...", "..#..", "...#.", "....#", "....."],
    ["##", ".#", ".#", ".#", ".#", ".#", "##"],
    ["...", ".#.", "#.#", "...", "...", "...", "..."],
    ["...", "...", "...", "...", "...", "###", "..."],
    ["..", "#.", ".#", "..", "..", "..", ".."],
    ["....", ".##.", "...#", ".###", "#..#", ".###", "...."],
    ["....", "#...", "#...", "###.", "#..#", "###.", "...."],
    ["...", "...", "...", ".##", "#..", ".##", "..."],
    ["....", "...#", "...#", ".###", "#..#", ".###", "...."],
    ["....", "....", ".##.", "####", "#...", ".###", "...."],
    ["....", "..##", ".#..", "###.", ".#..", ".#..", "...."],
    ["....", "....", ".###", "#..#", ".###", "...#", ".##."],
    ["....", "#...", "#...", "###.", "#..#", "#..#", "...."],
    [".", "#", ".", "#", "#", "#", "."],
    ["...", "..#", "...", "..#", "..#", "..#", "##."],
    ["...", "#..", "#..", "#.#", "##.", "#.#", "..."],
    [".", "#", "#", "#", "#", "#", "."],
    [".....", ".....", ".....", ".#.#.", "#.#.#", "#...#", "....."],
    ["....", "....", "....", ".##.", "#..#", "#..#", "...."],
    ["....", "....", "....", ".##.", "#..#", ".##.", "...."],
    ["....", "....", ".##.", "#..#", "###.", "#...", "#..."],
    ["....", "....", ".##.", "#..#", ".###", "...#", "...#"],
    ["...", "...", "...", ".##", "#..", "#..", "..."],
    ["....", "....", ".###", "#...", "..##", "###.", "...."],
    ["...", ".#.", ".#.", "###", ".#.", ".#.", "..."],
    ["....", "....", "....", "#..#", "#..#", ".##.", "...."],
    ["....", "....", "....", "#..#", "#.#.", ".#..", "...."],
    [".....", ".....", ".....", "#...#", "#.#.#", ".#.#.", "....."],
    ["...", "...", "...", "#.#", ".#.", "#.#", "..."],
    ["...", "...", "#.#", ".##", "..#", ".#.", "..."],
    ["...", "...", "###", ".#.", "#..", "###", "..."],
    [".##", ".#.", ".#.", "#..", ".#.", ".#.", ".##"],
    [".", "#", "#", "#", "#", "#", "."],
    ["##.", ".#.", ".#.", "..#", ".#.", ".#.", "##."],
    ["......", "......", ".##..#", "#..##.", "......", "......", "......"]
  ]

/-- Width (number of columns) of the glyph for character `ch`, read off the
first row of its font entry. -/
def glyphWidth (ch : Char) : Nat :=
  ((get_font.getD (ch.toNat - ASCII_PRINTABLE_FIRST) []).headD "").length

/-- One step of the row-building loop body in main.py (line 109):
`font_letter[row] + "."` for one message character. -/
def rowPiece (ch : Char) (row : Nat) : String :=
  ((get_font.getD (ch.toNat - ASCII_PRINTABLE_FIRST) []).getD row "") ++ "."

/-- The inversion of one grid row (main.py line 112):
every `.` becomes `#` and every other character becomes `.`. -/
def invertRow (s : String) : String :=
  String.mk (s.data.map (fun c => if c = '.' then '#' else '.'))

/-- One row of the grid before inversion (main.py lines 104-109):
start from `"."` and append `font_letter[row] + "."` for every character. -/
def buildRow (message : List Char) (row : Nat) : String :=
  message.foldl (fun acc ch => acc ++ rowPiece ch row) "."

/-- The grid built by main.py lines 102-114: seven rows, each built by
`buildRow` and inverted when `--invert` is set. -/
def buildGrid (message : List Char) (invert : Bool) : List String :=
  (List.range 7).map (fun row =>
    let r := buildRow message row
    if invert then invertRow r else r)

/-- `num_days = len(grid) * len(grid[0])` (main.py line 116). -/
def num_days (grid : List String) : Nat :=
  grid.length * (grid.headD "").length

/-- The number of columns the built grid should have: the sum of the glyph
widths plus one separator column after each character plus the initial
left-margin column. -/
def totalCols (message : List Char) : Nat :=
  (message.map glyphWidth).sum + message.length + 1

/-- A Python `datetime`, modelled by the proleptic Gregorian ordinal of its
date (ordinal 1 = 0001-01-01, a Monday) and its time-of-day fields. -/
structure PyDateTime where
  ordinal : Int
  hour : Nat
  minute : Nat
  second : Nat
  microsecond : Nat
deriving DecidableEq

/-- Python's `datetime.weekday()`: Monday = 0, ..., Sunday = 6.  Ordinal 1
(0001-01-01) is a Monday, so the weekday is `(ordinal - 1) % 7`. -/
def PyDateTime.weekday (d : PyDateTime) : Int :=
  (d.ordinal - 1) % 7

/-- `.replace(hour=12, minute=0, second=0, microsecond=0)` (main.py 117-119). -/
def replaceNoon (d : PyDateTime) : PyDateTime :=
  { d with hour := 12, minute := 0, second := 0, microsecond := 0 }

/-- Adding `timedelta(days=k)` to a datetime. -/
def addDays (d : PyDateTime) (k : Int) : PyDateTime :=
  { d with ordinal := d.ordinal + k }

/-- The `beginning` computed in main.py lines 117-122: normalize the start
datetime to noon, then subtract `(weekday() + 1) % 7` days. -/
def beginningOf (start : PyDateTime) : PyDateTime :=
  let b := replaceNoon start
  addDays b (-((b.weekday + 1) % 7))

/-- `day % 7, day // 7` (main.py lines 134-135): the grid cell of day `d`. -/
def dayToCell (day : Nat) : Nat × Nat :=
  (day % 7, day / 7)

/-- Reconstructing a day index from a grid cell `(row, column)` as
`column * 7 + row`. -/
def cellToDay (cell : Nat × Nat) : Nat :=
  cell.2 * 7 + cell.1

/-- `int(percent)`: Python truncation toward zero of the (rational) percent. -/
def int_of (percent : ℚ) : Int :=
  percent.num.tdiv (percent.den : Int)

/-- The `progress` function of main.py lines 182-190: a 25-slot bar where
slot `i` is `=` when `i * 4 <= percent`, followed by the truncated percent. -/
def progress (percent : ℚ) : String :=
  let bar := (List.range 25).foldl
    (fun b i => b ++ (if (i : ℚ) * 4 ≤ percent then "=" else " ")) ""
  "[" ++ bar ++ "] " ++ toString (int_of percent) ++ "%"

/-- Uppercase hexadecimal digits of `n` (no padding). -/
def hexUpper (n : Nat) : String :=
  String.mk ((Nat.toDigits 16 n).map Char.toUpper)

/-- Python's `"0x{:02X}".format(n)`: `0x` followed by the uppercase
hexadecimal digits of `n`, zero-padded on the left to at least two digits. -/
def formatByte (n : Nat) : String :=
  let s := hexUpper n
  "0x" ++ (if s.length < 2 then String.mk (List.replicate (2 - s.length) '0') ++ s else s)

/-- The invalid-character scan of main.py lines 88-93: the formatted byte
values of every message character outside [0x20, 0x7E], in message order. -/
def invalidBytes (message : List Char) : List String :=
  message.filterMap (fun ch =>
    let digit := ch.toNat
    if digit < ASCII_PRINTABLE_FIRST ∨ digit > ASCII_PRINTABLE_LAST then
      some (formatByte digit)
    else none)

/-- The grid character consulted for day `day` (main.py lines 134-137):
`grid[day % 7][day // 7]`. -/
def cellChar (grid : List String) (day : Nat) : Char :=
  (grid.getD (day % 7) "").data.getD (day / 7) '.'

/-- `commits_diff = args.max_commits - args.min_commits + 1` (main.py 149). -/
def commits_diff (min_commits max_commits : Int) : Int :=
  max_commits - min_commits + 1

/-- `num_commits = args.min_commits + random.randrange(commits_diff)`
(main.py line 150), with `r` the randrange draw. -/
def num_commits (min_commits : Int) (r : Nat) : Int :=
  min_commits + r

/-- The commits requested by one day of the main loop. -/
structure DayCommits where
  day : Nat
  date : PyDateTime
  count : Int
deriving DecidableEq

/-- The commit-driver loop of main.py lines 133-164: for every day of the
window, skip when the grid cell is `.` or when in dry-run mode; otherwise
request `min_commits + rng day` commits dated `beginning + day` days.
`rng day` stands for the fresh `random.randrange(commits_diff)` draw of
that day. -/
def runCommits (grid : List String) (beginning : PyDateTime)
    (min_commits : Int) (dry : Bool) (rng : Nat → Nat) : List DayCommits :=
  (List.range (num_days grid)).filterMap (fun day =>
    if cellChar grid day = '.' then none
    else if dry then none
    else some ⟨day, addDays beginning day, num_commits min_commits (rng day)⟩)

/-- The outcome of a run of `main`: either `sys.exit(code)` after printing
usage and an error message, or the list of requested commit batches. -/
inductive MainResult where
  | exitWith (code : Nat) (message : String)
  | ok (commits : List DayCommits)
deriving DecidableEq

/-- The commit batches a run produced (none when it exited early). -/
def commitsOf : MainResult → List DayCommits
  | .exitWith _ _ => []
  | .ok cs => cs

/-- The validation chain and body of `main` (main.py lines 62-164): the
empty-message check, the three bound checks, the invalid-character check
(each exiting with status 1 and the exact message printed by the source),
and otherwise the commit-driver loop. -/
def mainRun (message : List Char) (min_commits max_commits : Int)
    (dry invert : Bool) (start : PyDateTime) (rng : Nat → Nat) : MainResult :=
  if message.length = 0 then .exitWith 1 "Empty message is invalid"
  else if min_commits < 0 then .exitWith 1 "MIN_COMMITS must be at least 0"
  else if max_commits < 1 then .exitWith 1 "MAX_COMMITS must be at least 1"
  else if min_commits > max_commits then
    .exitWith 1 ("MIN_COMMITS (" ++ toString min_commits
      ++ ") cannot be more than MAX_COMMITS (" ++ toString max_commits ++ ")")
  else if (invalidBytes message).length > 0 then
    .exitWith 1 ("Unsupported characters in message: "
      ++ String.intercalate " " (invalidBytes message))
  else
    .ok (runCommits (buildGrid message invert) (beginningOf start)
      min_commits dry rng)

/-- The days classified "on" by a run, with their timestamps: a function of
the message, the invert flag and the start date only. -/
def onDays (message : List Char) (invert : Bool) (start : PyDateTime) :
    List (Nat × PyDateTime) :=
  let grid := buildGrid message invert
  (List.range (num_days grid)).filterMap (fun day =>
    if cellChar grid day = '.' then none
    else some (day, addDays (beginningOf start) day))

/-- The dates that actually receive at least one commit in a run. -/
def commitDates (result : MainResult) : List PyDateTime :=
  (commitsOf result).filterMap (fun e => if e.count ≤ 0 then none else some e.date)

/-- `needle` occurs at the head of `hay`. -/
def matchesHere : List Char → List Char → Bool
  | [], _ => true
  | _ :: _, [] => false
  | a :: as, b :: bs => a = b && matchesHere as bs

/-- `needle` occurs somewhere inside `hay` (substring test on strings). -/
def containsStr (hay needle : String) : Bool :=
  (List.range (hay.data.length + 1)).any
    (fun i => matchesHere needle.data (hay.data.drop i))

end GCW
namespace GCW

/-! ## Helper lemmas about the font table and the grid -/

/-- Every row of every glyph has the width of the glyph's first row. -/
theorem fontRowLen : ∀ idx < 95, ∀ row < 7,
    ((get_font.getD idx []).getD row "").length
      = ((get_font.getD idx []).headD "").length := by decide

/-- Every glyph of the font table has exactly 7 rows. -/
theorem fontGlyphLen : ∀ idx < 95, (get_font.getD idx []).length = 7 := by decide

/-- For a printable character and a row index below 7, the piece appended
for that character has the glyph's width plus the separator column. -/
theorem rowPiece_length (ch : Char) (h1 : 32 ≤ ch.toNat) (h2 : ch.toNat ≤ 126)
    (row : Nat) (hrow : row < 7) :
    (rowPiece ch row).length = glyphWidth ch + 1 := by
  have hidx : ch.toNat - ASCII_PRINTABLE_FIRST < 95 := by
    simp only [ASCII_PRINTABLE_FIRST]; omega
  have h := fontRowLen (ch.toNat - ASCII_PRINTABLE_FIRST) hidx row hrow
  simp only [rowPiece, glyphWidth, String.length_append, h]
  rfl

/-- Inverting a row keeps its length. -/
theorem invertRow_length (s : String) : (invertRow s).length = s.length := by
  show (s.data.map _).length = s.data.length
  exact List.length_map _ _

/-- Length of the row-building fold, for any accumulator. -/
theorem buildRow_length_aux (row : Nat) :
    ∀ (message : List Char) (acc : String),
      (message.foldl (fun a ch => a ++ rowPiece ch row) acc).length
        = acc.length + (message.map (fun ch => (rowPiece ch row).length)).sum := by
  intro message
  induction message with
  | nil => intro acc; simp
  | cons ch rest ih =>
    intro acc
    simp only [List.foldl_cons, List.map_cons, List.sum_cons, ih, String.length_append]
    omega

/-- Sum of the per-character piece lengths for a printable message. -/
theorem mapSum_rowPiece (row : Nat) (hrow : row < 7) :
    ∀ (message : List Char), (∀ ch ∈ message, 32 ≤ ch.toNat ∧ ch.toNat ≤ 126) →
      (message.map (fun ch => (rowPiece ch row).length)).sum
        = (message.map glyphWidth).sum + message.length := by
  intro message
  induction message with
  | nil => intro _; simp
  | cons ch rest ih =>
    intro hvalid
    have hch := hvalid ch (by simp)
    have hrest : ∀ c ∈ rest, 32 ≤ c.toNat ∧ c.toNat ≤ 126 :=
      fun c hc => hvalid c (by simp [hc])
    simp only [List.map_cons, List.sum_cons, List.length_cons,
      rowPiece_length ch hch.1 hch.2 row hrow, ih hrest]
    omega

/-- Every row of the grid built from a printable message has `totalCols`
columns (before inversion). -/
theorem buildRow_length (message : List Char) (row : Nat) (hrow : row < 7)
    (hvalid : ∀ ch ∈ message, 32 ≤ ch.toNat ∧ ch.toNat ≤ 126) :
    (buildRow message row).length = totalCols message := by
  have h := buildRow_length_aux row message "."
  have hone : ("." : String).length = 1 := rfl
  rw [buildRow, h, hone, mapSum_rowPiece row hrow message hvalid]
  simp only [totalCols]
  omega

/-- Every row of the built grid, inverted or not, has `totalCols` columns. -/
theorem buildGrid_row_length (message : List Char) (invert : Bool)
    (hvalid : ∀ ch ∈ message, 32 ≤ ch.toNat ∧ ch.toNat ≤ 126) :
    ∀ r ∈ buildGrid message invert, r.length = totalCols message := by
  intro r hr
  simp only [buildGrid, List.mem_map, List.mem_range] at hr
  obtain ⟨row, hrow, hre⟩ := hr
  subst hre
  by_cases hinv : invert <;>
    simp [hinv, invertRow_length, buildRow_length message row hrow hvalid]

/-- The built grid always has 7 rows. -/
theorem buildGrid_length (message : List Char) (invert : Bool) :
    (buildGrid message invert).length = 7 := by
  simp [buildGrid]

/-- A needle matches at the front of itself followed by anything. -/
theorem matchesHere_append (s t : List Char) : matchesHere s (s ++ t) = true := by
  induction s with
  | nil => rfl
  | cons a as ih => simp [matchesHere, ih]

/-- A string embedded between two others is found by `containsStr`. -/
theorem containsStr_mid (a s b : String) : containsStr (a ++ s ++ b) s = true := by
  simp only [containsStr, List.any_eq_true, List.mem_range]
  refine ⟨a.data.length, ?_, ?_⟩
  · simp [String.data_append]
    omega
  · have h : (a ++ s ++ b).data = a.data ++ (s.data ++ b.data) := by
      simp [String.data_append]
    rw [h, List.drop_left]
    exact matchesHere_append s.data b.data

/-! ## The claims -/

/-- C1: for every grid of 7 rows and C columns, the calendar window has
exactly 7*C days, and day d maps to cell (d mod 7, d div 7): the cell is in
range, the round trip column*7+row returns d, every in-range cell is hit by
exactly the day it reconstructs, and no two distinct days share a cell. -/
theorem window_cell_bijection (grid : List String) (C : Nat)
    (hrows : grid.length = 7) (hcols : ∀ r ∈ grid, r.length = C) :
    num_days grid = 7 * C ∧
    (∀ day < 7 * C, (dayToCell day).1 < 7 ∧ (dayToCell day).2 < C ∧
      cellToDay (dayToCell day) = day) ∧
    (∀ cell : Nat × Nat, cell.1 < 7 → cell.2 < C →
      cellToDay cell < 7 * C ∧ dayToCell (cellToDay cell) = cell) ∧
    (∀ d1 < 7 * C, ∀ d2 < 7 * C, dayToCell d1 = dayToCell d2 → d1 = d2) := by
  refine ⟨?_, ?_, ?_, ?_⟩
  · match grid, hrows with
    | r :: rs, hrows =>
      have h : r.length = C := hcols r (by simp)
      simp only [num_days, List.headD_cons, h, hrows]
  · intro day hday
    simp only [dayToCell, cellToDay]
    exact ⟨by omega, by omega, by omega⟩
  · intro cell h1 h2
    obtain ⟨row, col⟩ := cell
    simp only [dayToCell, cellToDay, Prod.mk.injEq] at h1 h2 ⊢
    exact ⟨by omega, by omega, by omega⟩
  · intro d1 h1 d2 h2 h
    simp only [dayToCell, Prod.mk.injEq] at h
    omega

/-- Witness for C1 at a concrete 7-row, 3-column grid. -/
theorem window_cell_bijection_witness :
    num_days ["...", "...", "...", "...", "...", "...", "..."] = 7 * 3 ∧
    (∀ day < 7 * 3, (dayToCell day).1 < 7 ∧ (dayToCell day).2 < 3 ∧
      cellToDay (dayToCell day) = day) ∧
    (∀ cell : Nat × Nat, cell.1 < 7 → cell.2 < 3 →
      cellToDay cell < 7 * 3 ∧ dayToCell (cellToDay cell) = cell) ∧
    (∀ d1 < 7 * 3, ∀ d2 < 7 * 3, dayToCell d1 = dayToCell d2 → d1 = d2) :=
  window_cell_bijection ["...", "...", "...", "...", "...", "...", "..."] 3
    (by decide) (by decide)

/-- C2: for every start datetime, the computed beginning of the window is
normalized to noon with no fractional seconds, falls on a Sunday (Python
weekday 6), is on or before the normalized start, is reached by rolling
back exactly (weekday+1) mod 7 days (Sunday-as-week-start index), is less
than 7 days before the start, and is the date of day 0 of the window. -/
theorem beginning_sunday (start : PyDateTime) :
    (beginningOf start).weekday = 6 ∧
    (beginningOf start).hour = 12 ∧
    (beginningOf start).minute = 0 ∧
    (beginningOf start).second = 0 ∧
    (beginningOf start).microsecond = 0 ∧
    (beginningOf start).ordinal ≤ (replaceNoon start).ordinal ∧
    (replaceNoon start).ordinal - (beginningOf start).ordinal
      = ((replaceNoon start).weekday + 1) % 7 ∧
    (replaceNoon start).ordinal - (beginningOf start).ordinal < 7 ∧
    addDays (beginningOf start) 0 = beginningOf start := by
  simp only [beginningOf, addDays, replaceNoon, PyDateTime.weekday]
  refine ⟨by omega, trivial, trivial, trivial, trivial, by omega, by omega, by omega, ?_⟩
  simp

/-- C3: for every printable-ASCII message, with or without inversion, the
built grid has exactly 7 rows and all rows have identical length. -/
theorem buildGrid_shape (message : List Char) (invert : Bool)
    (hvalid : ∀ ch ∈ message, 32 ≤ ch.toNat ∧ ch.toNat ≤ 126) :
    (buildGrid message invert).length = 7 ∧
    ∀ r ∈ buildGrid message invert, ∀ s ∈ buildGrid message invert,
      r.length = s.length := by
  refine ⟨buildGrid_length message invert, ?_⟩
  intro r hr s hs
  rw [buildGrid_row_length message invert hvalid r hr,
    buildGrid_row_length message invert hvalid s hs]

/-- Witness for C3 at the message "HI". -/
theorem buildGrid_shape_witness :
    (buildGrid ['H', 'I'] false).length = 7 ∧
    ∀ r ∈ buildGrid ['H', 'I'] false, ∀ s ∈ buildGrid ['H', 'I'] false,
      r.length = s.length :=
  buildGrid_shape ['H', 'I'] false (by decide)

/-- C4 counterexample: for the one-character message "!", the grid has 3
columns, not glyph width + character count = 2: the builder emits a
separator column after every glyph in addition to the initial left-margin
column, so the total is one more than the claim states. -/
theorem buildGrid_columns_cx :
    ¬ ((buildGrid ['!'] false).headD "").length
        = (['!'].map glyphWidth).sum + ['!'].length := by decide

/-- C4 (amended): for every printable-ASCII message, with or without
inversion, the total number of grid columns equals the sum of the glyph
widths plus the number of characters plus one (a separator column per
character and one leading margin column). -/
theorem buildGrid_columns (message : List Char) (invert : Bool)
    (hvalid : ∀ ch ∈ message, 32 ≤ ch.toNat ∧ ch.toNat ≤ 126) :
    ((buildGrid message invert).headD "").length
      = (message.map glyphWidth).sum + message.length + 1 := by
  have h7 := buildGrid_length message invert
  have hall := buildGrid_row_length message invert hvalid
  cases hg : buildGrid message invert with
  | nil => rw [hg] at h7; simp at h7
  | cons r rs =>
    have hmem : r ∈ buildGrid message invert := by rw [hg]; simp
    have hr := hall r hmem
    simpa [totalCols] using hr

/-- Witness for C4 at the inverted message "A". -/
theorem buildGrid_columns_witness :
    ((buildGrid ['A'] true).headD "").length
      = (['A'].map glyphWidth).sum + ['A'].length + 1 :=
  buildGrid_columns ['A'] true (by decide)

/-- C5: whenever min ≤ max and the randrange draw r is below
max - min + 1, the day's commit count min + r lies in [min, max]; the map
r ↦ min + r is a bijection from [0, max-min+1) onto [min, max] (so a
uniform draw gives a uniform count); and every commit batch emitted by the
driver loop under such draws has its count in [min, max]. -/
theorem num_commits_bounds (min_commits max_commits : Int) (r : Nat)
    (hmm : min_commits ≤ max_commits)
    (hr : (r : Int) < commits_diff min_commits max_commits) :
    (min_commits ≤ num_commits min_commits r ∧
      num_commits min_commits r ≤ max_commits) ∧
    (∀ n : Int, min_commits ≤ n → n ≤ max_commits →
      ∃! s : Nat, (s : Int) < commits_diff min_commits max_commits
        ∧ num_commits min_commits s = n) ∧
    (∀ grid beginning rng,
      (∀ d, (rng d : Int) < commits_diff min_commits max_commits) →
      ∀ e ∈ runCommits grid beginning min_commits false rng,
        min_commits ≤ e.count ∧ e.count ≤ max_commits) := by
  simp only [num_commits, commits_diff] at *
  refine ⟨⟨by omega, by omega⟩, ?_, ?_⟩
  · intro n h1 h2
    refine ⟨(n - min_commits).toNat, ⟨by omega, by omega⟩, ?_⟩
    intro s' hs'
    omega
  · intro grid beginning rng hrng e he
    simp only [runCommits, List.mem_filterMap, List.mem_range] at he
    obtain ⟨day, hday, hsome⟩ := he
    by_cases hc : cellChar grid day = '.'
    · simp [hc] at hsome
    · simp only [hc, if_false, Bool.false_eq_true, reduceIte, Option.some.injEq] at hsome
      have := hrng day
      subst hsome
      simp only [num_commits]
      constructor <;> omega

/-- Witness for C5 at min 30, max 35, draw 2. -/
theorem num_commits_bounds_witness :
    ((30 : Int) ≤ num_commits 30 2 ∧ num_commits 30 2 ≤ 35) ∧
    (∀ n : Int, 30 ≤ n → n ≤ 35 →
      ∃! s : Nat, (s : Int) < commits_diff 30 35
        ∧ num_commits 30 s = n) ∧
    (∀ grid beginning rng,
      (∀ d, (rng d : Int) < commits_diff 30 35) →
      ∀ e ∈ runCommits grid beginning 30 false rng,
        (30 : Int) ≤ e.count ∧ e.count ≤ 35) :=
  num_commits_bounds 30 35 2 (by decide) (by decide)

/-- C6 counterexample: at 0 percent the bar is not all spaces: slot 0 is
filled because 0 * 4 ≤ 0, so the rendered text is not the claimed
25-space bar. -/
theorem progress_zero_cx :
    progress 0 ≠ "[                         ] 0%" := by
  have h : int_of 0 = 0 := by norm_num [int_of]
  simp only [progress, List.range_succ, List.range_zero, List.foldl, h]
  norm_num
  decide

/-- C6 (amended): at 0 percent the bar has exactly one filled slot
followed by 24 spaces, and at 100 percent all 25 slots are filled. -/
theorem progress_endpoints :
    progress 0 = "[=                        ] 0%" ∧
    progress 100 = "[=========================] 100%" := by
  constructor
  · have h : int_of 0 = 0 := by norm_num [int_of]
    simp only [progress, List.range_succ, List.range_zero, List.foldl, h]
    norm_num
    rfl
  · have h : int_of 100 = 100 := by norm_num [int_of]
    simp only [progress, List.range_succ, List.range_zero, List.foldl, h]
    norm_num
    rfl

/-- C7: for otherwise valid bounds, a message with a character outside
[0x20, 0x7E] makes the run exit with status 1 reporting every invalid byte
as an 0x-prefixed two-digit uppercase hex value (0x07 formats as "0x07"),
and no commit batch is produced. -/
theorem invalid_message_rejected (message : List Char)
    (min_commits max_commits : Int) (dry invert : Bool) (start : PyDateTime)
    (rng : Nat → Nat) (hmin : 0 ≤ min_commits) (hmax : 1 ≤ max_commits)
    (hmm : min_commits ≤ max_commits)
    (hbad : ∃ ch ∈ message, ch.toNat < 32 ∨ 126 < ch.toNat) :
    mainRun message min_commits max_commits dry invert start rng
      = .exitWith 1 ("Unsupported characters in message: "
          ++ String.intercalate " " (invalidBytes message)) ∧
    (∀ ch ∈ message, ch.toNat < 32 ∨ 126 < ch.toNat →
        formatByte ch.toNat ∈ invalidBytes message) ∧
    formatByte 7 = "0x07" ∧
    commitsOf (mainRun message min_commits max_commits dry invert start rng)
      = [] := by
  have hmem : ∀ ch ∈ message, ch.toNat < 32 ∨ 126 < ch.toNat →
      formatByte ch.toNat ∈ invalidBytes message := by
    intro ch hch hout
    simp only [invalidBytes, List.mem_filterMap]
    refine ⟨ch, hch, ?_⟩
    simp only [ASCII_PRINTABLE_FIRST, ASCII_PRINTABLE_LAST]
    rw [if_pos (by omega)]
  have hne : ¬ message.length = 0 := by
    obtain ⟨ch, hch, _⟩ := hbad
    cases message
    · simp at hch
    · simp
  have hbytes : (invalidBytes message).length > 0 := by
    obtain ⟨ch, hch, hout⟩ := hbad
    exact List.length_pos.mpr (List.ne_nil_of_mem (hmem ch hch hout))
  have hrun : mainRun message min_commits max_commits dry invert start rng
      = .exitWith 1 ("Unsupported characters in message: "
          ++ String.intercalate " " (invalidBytes message)) := by
    rw [mainRun, if_neg hne, if_neg (by omega), if_neg (by omega),
      if_neg (by omega), if_pos hbytes]
  exact ⟨hrun, hmem, rfl, by rw [hrun]; rfl⟩

/-- Witness for C7 at the message "H" followed by the BEL character 0x07. -/
theorem invalid_message_rejected_witness :
    mainRun ['H', Char.ofNat 7] 30 35 false false ⟨1, 0, 0, 0, 0⟩ (fun _ => 0)
      = .exitWith 1 ("Unsupported characters in message: "
          ++ String.intercalate " " (invalidBytes ['H', Char.ofNat 7])) ∧
    (∀ ch ∈ ['H', Char.ofNat 7], ch.toNat < 32 ∨ 126 < ch.toNat →
        formatByte ch.toNat ∈ invalidBytes ['H', Char.ofNat 7]) ∧
    formatByte 7 = "0x07" ∧
    commitsOf (mainRun ['H', Char.ofNat 7] 30 35 false false
      ⟨1, 0, 0, 0, 0⟩ (fun _ => 0)) = [] :=
  invalid_message_rejected ['H', Char.ofNat 7] 30 35 false false
    ⟨1, 0, 0, 0, 0⟩ (fun _ => 0) (by decide) (by decide) (by decide)
    ⟨Char.ofNat 7, by decide, by decide⟩

/-- C8 counterexample: with min-commits -1 the run is rejected, but the
error text is the fixed string "MIN_COMMITS must be at least 0", which does
not name the offending value -1. -/
theorem bounds_message_cx :
    mainRun ['H', 'I'] (-1) 35 false false ⟨1, 0, 0, 0, 0⟩ (fun _ => 0)
        = .exitWith 1 "MIN_COMMITS must be at least 0" ∧
    containsStr "MIN_COMMITS must be at least 0" "-1" = false := by decide

/-- C8 (amended): min < 0, max < 1 and min > max are each rejected with
exit status 1 and a descriptive message naming the offending parameter;
only the min > max case names the offending values themselves, both of
which appear in its message. -/
theorem bounds_validation (message : List Char) (min_commits max_commits : Int)
    (dry invert : Bool) (start : PyDateTime) (rng : Nat → Nat)
    (hne : message ≠ []) :
    (min_commits < 0 →
      mainRun message min_commits max_commits dry invert start rng
        = .exitWith 1 "MIN_COMMITS must be at least 0") ∧
    (0 ≤ min_commits → max_commits < 1 →
      mainRun message min_commits max_commits dry invert start rng
        = .exitWith 1 "MAX_COMMITS must be at least 1") ∧
    (0 ≤ min_commits → 1 ≤ max_commits → max_commits < min_commits →
      mainRun message min_commits max_commits dry invert start rng
        = .exitWith 1 ("MIN_COMMITS (" ++ toString min_commits
            ++ ") cannot be more than MAX_COMMITS (" ++ toString max_commits ++ ")") ∧
      containsStr ("MIN_COMMITS (" ++ toString min_commits
            ++ ") cannot be more than MAX_COMMITS (" ++ toString max_commits ++ ")")
          (toString min_commits) = true ∧
      containsStr ("MIN_COMMITS (" ++ toString min_commits
            ++ ") cannot be more than MAX_COMMITS (" ++ toString max_commits ++ ")")
          (toString max_commits) = true) := by
  have hlen : ¬ message.length = 0 := by
    cases message
    · exact absurd rfl hne
    · simp
  refine ⟨?_, ?_, ?_⟩
  · intro h1
    rw [mainRun, if_neg hlen, if_pos h1]
  · intro h1 h2
    rw [mainRun, if_neg hlen, if_neg (by omega), if_pos h2]
  · intro h1 h2 h3
    refine ⟨?_, ?_, ?_⟩
    · rw [mainRun, if_neg hlen, if_neg (by omega), if_neg (by omega),
        if_pos (by omega)]
    · have h := containsStr_mid "MIN_COMMITS (" (toString min_commits)
        (") cannot be more than MAX_COMMITS (" ++ toString max_commits ++ ")")
      simpa [String.append_assoc] using h
    · have h := containsStr_mid ("MIN_COMMITS (" ++ toString min_commits
          ++ ") cannot be more than MAX_COMMITS (") (toString max_commits) ")"
      simpa [String.append_assoc] using h

/-- Witness for C8: min-commits -1 is rejected, and min 10 with max 5 is
rejected with both values appearing in the message. -/
theorem bounds_validation_witness :
    (mainRun ['H', 'I'] (-1) 35 false false ⟨2, 0, 0, 0, 0⟩ (fun _ => 0)
        = .exitWith 1 "MIN_COMMITS must be at least 0") ∧
    (mainRun ['H', 'I'] 10 5 false false ⟨2, 0, 0, 0, 0⟩ (fun _ => 0)
        = .exitWith 1 ("MIN_COMMITS (" ++ toString (10 : Int)
            ++ ") cannot be more than MAX_COMMITS (" ++ toString (5 : Int) ++ ")") ∧
      containsStr ("MIN_COMMITS (" ++ toString (10 : Int)
            ++ ") cannot be more than MAX_COMMITS (" ++ toString (5 : Int) ++ ")")
          (toString (10 : Int)) = true ∧
      containsStr ("MIN_COMMITS (" ++ toString (10 : Int)
            ++ ") cannot be more than MAX_COMMITS (" ++ toString (5 : Int) ++ ")")
          (toString (5 : Int)) = true) :=
  ⟨(bounds_validation ['H', 'I'] (-1) 35 false false ⟨2, 0, 0, 0, 0⟩
      (fun _ => 0) (by decide)).1 (by decide),
   (bounds_validation ['H', 'I'] 10 5 false false ⟨2, 0, 0, 0, 0⟩
      (fun _ => 0) (by decide)).2.2 (by decide) (by decide) (by decide)⟩

/-- C9: the font table has exactly 95 entries, so for every code point in
[32, 126] the index codepoint - 32 is in bounds, and the glyph found there
has exactly 7 rows, so every row index 0..6 is in bounds as well. -/
theorem font_lookup_total (cp : Nat) (h1 : 32 ≤ cp) (h2 : cp ≤ 126) :
    get_font.length = 95 ∧
    cp - ASCII_PRINTABLE_FIRST < get_font.length ∧
    (get_font.getD (cp - ASCII_PRINTABLE_FIRST) []).length = 7 ∧
    (∀ row < 7, row < (get_font.getD (cp - ASCII_PRINTABLE_FIRST) []).length) := by
  have hlen : get_font.length = 95 := by decide
  have hidx : cp - ASCII_PRINTABLE_FIRST < 95 := by
    simp only [ASCII_PRINTABLE_FIRST]; omega
  have hg := fontGlyphLen (cp - ASCII_PRINTABLE_FIRST) hidx
  exact ⟨hlen, by omega, hg, by omega⟩

/-- Witness for C9 at code point 65. -/
theorem font_lookup_total_witness :
    get_font.length = 95 ∧
    65 - ASCII_PRINTABLE_FIRST < get_font.length ∧
    (get_font.getD (65 - ASCII_PRINTABLE_FIRST) []).length = 7 ∧
    (∀ row < 7, row < (get_font.getD (65 - ASCII_PRINTABLE_FIRST) []).length) :=
  font_lookup_total 65 (by decide) (by decide)

/-- C10 counterexample: two runs with the same message, invert flag and
start date but different random draws (min 0, max 1, so the draw may be 0)
give different sets of dates that receive at least one commit, refuting
that this set depends on message, invert and start alone. -/
theorem schedule_not_count_independent_cx :
    commitDates (mainRun ['!'] 0 1 false false ⟨10, 0, 0, 0, 0⟩ (fun _ => 0))
      ≠ commitDates (mainRun ['!'] 0 1 false false ⟨10, 0, 0, 0, 0⟩ (fun _ => 1)) := by
  decide

/-- C10 (amended): the days the driver attempts, with their timestamps, are
exactly the "on" days determined by message, invert flag and start date
alone, whatever the bounds and draws; and when minCommits ≥ 1 the dates
that receive at least one commit are exactly the timestamps of those "on"
days, hence identical across runs. -/
theorem commit_schedule_deterministic (message : List Char) (invert : Bool)
    (start : PyDateTime) (min_commits : Int) (rng : Nat → Nat)
    (hmin : 1 ≤ min_commits) :
    ((runCommits (buildGrid message invert) (beginningOf start)
        min_commits false rng).map (fun e => (e.day, e.date))
      = onDays message invert start) ∧
    ((runCommits (buildGrid message invert) (beginningOf start)
        min_commits false rng).filterMap
        (fun e => if e.count ≤ 0 then none else some e.date)
      = (onDays message invert start).map Prod.snd) := by
  constructor
  · rw [runCommits, onDays, List.map_filterMap]
    apply List.filterMap_congr
    intro day _
    by_cases h : cellChar (buildGrid message invert) day = '.' <;> simp [h]
  · rw [runCommits, onDays, List.map_filterMap, List.filterMap_filterMap]
    apply List.filterMap_congr
    intro day _
    by_cases h : cellChar (buildGrid message invert) day = '.' <;> simp [h]
    simp only [num_commits]
    omega

/-- Witness for C10 at the message "!", min 1 and the constant-zero draw. -/
theorem commit_schedule_deterministic_witness :
    ((runCommits (buildGrid ['!'] false) (beginningOf ⟨10, 0, 0, 0, 0⟩)
        1 false (fun _ => 0)).map (fun e => (e.day, e.date))
      = onDays ['!'] false ⟨10, 0, 0, 0, 0⟩) ∧
    ((runCommits (buildGrid ['!'] false) (beginningOf ⟨10, 0, 0, 0, 0⟩)
        1 false (fun _ => 0)).filterMap
        (fun e => if e.count ≤ 0 then none else some e.date)
      = (onDays ['!'] false ⟨10, 0, 0, 0, 0⟩).map Prod.snd) :=
  commit_schedule_deterministic ['!'] false ⟨10, 0, 0, 0, 0⟩ 1
    (fun _ => 0) (by decide)

end GCW
